import Mathlib

/-!
Verification of the proposal lifecycle engine of an M&A deal-marketplace
backend (Python/FastAPI/MongoDB).  The definitions below are a shallow
embedding of the modular proposal services under
`backend/app/services/proposal/` (validation_service.py, core_service.py,
workflow_service.py, admin_service.py, search_service.py) against the
data model of `backend/app/models/proposal.py` and the exception classes
of `backend/app/core/exceptions.py`.

The embedding captures the program as it actually executes, which is
dominated by four source defects:

1. `core/exceptions.py` defines no `PermissionException`, yet
   workflow_service.py and admin_service.py both do
   `from app.core.exceptions import ... PermissionException ...` — those
   two modules fail to import, so none of their functions can run in the
   program.  Their definitions below embed the behavior their bodies
   specify were the module loadable (with the `isinstance` re-raise
   guards read as written); the claims they decide are settled as code
   bugs either way.
2. `ValidationException.__init__(message, field=None, details=None)` and
   `PermissionDeniedException.__init__(message, details=None)` accept no
   `error_code` keyword, but every raise site in validation_service.py
   passes `error_code=...` — those raises are `TypeError`s, not
   structured errors.
3. `Proposal` extends the plain (non-pydantic) `TimestampMixin`, so
   `Proposal(**kwargs)` is a `TypeError` and `Proposal.from_dict` does
   not exist; every materialization of a stored document
   (core_service.py line 140, search_service.py line 92) raises, and the
   service wrappers turn that into `PROPOSAL_GET_ERROR` /
   `PROPOSAL_SEARCH_ERROR`.  `ReviewRecord` requires a `reviewer_name`
   that `_transition_status` never passes (and lacks the
   `status_from`/`status_to`/`created_at`/`metadata` fields and the
   `to_dict` method it uses), so no review record is ever constructed.
4. `ProposalSearchParams` declares `keyword`/`size`/`regions`, while
   search_service.py reads `keywords`/`page_size`/`locations` —
   `_build_base_query` raises `AttributeError` right after writing the
   status constraint into the query dict.

MongoDB state is modelled as a store `String → Option ProposalDoc`;
raised exceptions become `Except PyErr` results; object ids are plain
strings assumed well-formed.
-/

namespace MA

/-- `ProposalStatus` enum from models/proposal.py. -/
inductive ProposalStatus where
  | draft
  | under_review
  | approved
  | rejected
  | available
  | sent
  | archived
deriving DecidableEq, Repr

/-- `UserRole` enum from models/user.py (admin/seller/buyer). -/
inductive UserRole where
  | admin
  | seller
  | buyer
deriving DecidableEq, Repr

/-- A user document as the permission checks read it: `role` and
`is_active` (the source reads `user.get("is_active", True)`). -/
structure User where
  role : UserRole
  is_active : Bool
deriving DecidableEq, Repr

/-- Outcomes of a raised Python exception, as far as the claims need to
distinguish them:
* `business code` — a `BusinessException` (or subclass) successfully
  constructed with the given `error_code` (its constructor does accept
  `error_code` as the second parameter);
* `typeError` — a Python `TypeError`, e.g. from calling
  `ValidationException`/`PermissionDeniedException` with the unsupported
  `error_code=` keyword;
* `attributeError` — a Python `AttributeError` from reading a field that
  the object does not define;
* `http status` — an `HTTPException` escaping an API endpoint. -/
inductive PyErr where
  | business (code : String)
  | typeError
  | attributeError
  | http (status : Nat)
deriving DecidableEq, Repr

deriving instance DecidableEq for Except

/-- `CompanyInfo` block, restricted to fields the claims touch; the
field names follow models/proposal.py. -/
structure CompanyInfo where
  company_name : String
  industry : String
  company_size : String
  headquarters : String
  established_year : Nat
deriving DecidableEq, Repr

/-- `FinancialInfo` block (models/proposal.py): the required numeric
fields are `annual_revenue`/`net_profit`/`asking_price`.  Note there are
no `revenue`/`profit` fields — those are the names search_service.py
tries to read. -/
structure FinancialInfo where
  annual_revenue : Nat
  net_profit : Int
  asking_price : Nat
deriving DecidableEq, Repr

/-- `BusinessModel` block (representative field). -/
structure BusinessModel where
  business_type : String
deriving DecidableEq, Repr

/-- `TeaserContent` block (models/proposal.py): title/tagline/summary/
highlights.  There is no `business_overview` field — that is the name
parts of search_service.py try to read. -/
structure TeaserContent where
  title : String
  tagline : String
  summary : String
  highlights : List String
deriving DecidableEq, Repr

/-- `FullContent` block (field the claims touch). -/
structure FullContent where
  detailed_description : String
deriving DecidableEq, Repr

/-- `ReviewRecord` as models/proposal.py line 178 declares it:
`reviewer_id`, required `reviewer_name`, `action`, optional `comment`,
`reviewed_at`.  `_transition_status` instead passes `status_from`/
`status_to`/`created_at`/`metadata` (unknown to this model) and omits
the required `reviewer_name`, so its construction always raises — no
value of this type is ever built by the workflow. -/
structure ReviewRecord where
  reviewer_id : String
  reviewer_name : String
  action : String
  comment : Option String
  reviewed_at : Nat
deriving DecidableEq, Repr

/-- A stored proposal document (the MongoDB document shape per
`Proposal.to_dict` and the seeding scripts), restricted to the fields
the claims concern.  Documents exist in the store (seeded externally);
the services can read them as raw dicts but can never materialize them
into `Proposal` objects (`Proposal.from_dict` does not exist). -/
structure ProposalDoc where
  id : String
  creator_id : String
  status : ProposalStatus
  version : Nat
  company_info : CompanyInfo
  financial_info : FinancialInfo
  business_model : BusinessModel
  teaser_content : TeaserContent
  full_content : Option FullContent
  review_records : List ReviewRecord
  view_count : Nat
  sent_count : Nat
  created_at : Nat
  updated_at : Nat
deriving DecidableEq, Repr

/-- The proposals collection: one document per id. -/
def Store := String → Option ProposalDoc

/-- Overwrite one document (the effect of an `update_one` matched on
`_id`). -/
def Store.put (s : Store) (pid : String) (p : ProposalDoc) : Store :=
  fun k => if k = pid then some p else s k

/-- The users collection as the permission checks read it. -/
def Users := String → Option User

/-- Did a service call return without raising? -/
def succeeds (r : Except PyErr Unit) : Bool :=
  match r with
  | .ok _ => true
  | .error _ => false

/-- The `error_code` of a failed call when the raised exception is a
structured `BusinessException`; `none` on success or when the escaping
exception carries no error code (`TypeError`, `AttributeError`,
`HTTPException`). -/
def result_code (r : Except PyErr Unit) : Option String :=
  match r with
  | .error (.business c) => some c
  | _ => none

/-! ## Validation service (validation_service.py) — importable -/

/-- The fixed adjacency table `valid_transitions` inside
`ProposalValidationService.validate_status_transition`
(validation_service.py lines 300-308). -/
def valid_transitions : ProposalStatus → List ProposalStatus
  | .draft => [.under_review, .archived]
  | .under_review => [.approved, .rejected, .draft]
  | .approved => [.available, .archived]
  | .available => [.sent, .archived]
  | .sent => [.archived]
  | .rejected => [.draft, .archived]
  | .archived => []

/-- `ProposalValidationService.validate_status_transition`: returns
normally when the target is listed for the current status; otherwise it
executes `raise ValidationException(message=..., error_code=
"INVALID_STATUS_TRANSITION")` — which is a `TypeError` (the constructor
accepts no `error_code` keyword), escaping raw because the method has
no try/except. -/
def validate_status_transition (current target : ProposalStatus) :
    Except PyErr Unit :=
  if target ∈ valid_transitions current then .ok ()
  else .error .typeError

/-- `ProposalValidationService.check_admin_permission`: succeeds for an
existing active admin; every failure branch calls
`PermissionDeniedException(message=..., error_code=...)`, a `TypeError`,
and the method's own except handler re-wraps with another
`error_code=` call, so the escaping exception is again a `TypeError`. -/
def check_admin_permission (users : Users) (user_id : String) :
    Except PyErr Unit :=
  match users user_id with
  | none => .error .typeError
  | some u =>
    if u.role ≠ .admin then .error .typeError
    else if ¬ u.is_active then .error .typeError
    else .ok ()

/-- Completeness report shape returned by
`ProposalValidationService.check_data_completeness`. -/
structure Completeness where
  overall_score : Nat
  missing_fields : List String
  suggestions : List String
  ready_for_submission : Bool
deriving DecidableEq, Repr

/-- `ProposalValidationService.check_data_completeness`
(validation_service.py lines 334-364): the source initialises the report
with score 0, empty lists and `ready_for_submission: False`, lists the
required field names in an unused local variable, and returns the
report unchanged — the score computation and the submit decision
announced by its comments are not implemented, so the report is
constant. -/
def check_data_completeness (_p : ProposalDoc) : Completeness :=
  { overall_score := 0
    missing_fields := []
    suggestions := []
    ready_for_submission := false }

/-! ## Core service (core_service.py) — importable -/

/-- `ProposalCoreService.create_proposal`: after the creator-permission
check, the source runs `Proposal(creator_id=..., ...)`; `Proposal`
extends the plain `TimestampMixin`, so that call is a `TypeError`
caught by the method's handler and wrapped as `PROPOSAL_CREATE_ERROR`
(a failing permission check ends in the same wrap, since its own raise
is a `TypeError`).  `insert_one` is never reached: no proposal document
is ever created by this service and the store is untouched. -/
def create_proposal (store : Store) (_creator_id : String) :
    Except PyErr Unit × Store :=
  (.error (.business "PROPOSAL_CREATE_ERROR"), store)

/-- `ProposalCoreService.get_proposal_by_id`: a missing id returns
`None`; for an existing document the source calls the nonexistent
`Proposal.from_dict` (core_service.py line 140), an `AttributeError`
caught by the method's handler and wrapped as `PROPOSAL_GET_ERROR`.
The view-count branch below that line is unreachable, so the store is
never modified regardless of `user_id`/`increment_view`. -/
def get_proposal_by_id (store : Store) (proposal_id : String)
    (_user_id : Option String) (_increment_view : Bool) :
    Except PyErr (Option ProposalDoc) × Store :=
  match store proposal_id with
  | none => (.ok none, store)
  | some _ => (.error (.business "PROPOSAL_GET_ERROR"), store)

/-- `ProposalCoreService.increment_view_count`: one `update_one` with
`$inc view_count 1` on the raw document — this standalone method does
not materialize a `Proposal` and genuinely works when called directly;
but `get_proposal_by_id` never reaches its call site. -/
def increment_view_count (store : Store) (proposal_id : String) : Store :=
  match store proposal_id with
  | none => store
  | some p => store.put proposal_id { p with view_count := p.view_count + 1 }

/-- `ProposalCoreService.get_proposal_for_edit`: delegates the fetch to
`get_proposal_by_id` with no try/except of its own — for an existing
document the `PROPOSAL_GET_ERROR` propagates; for a missing one it
returns `None`.  The creator/admin permission code below the fetch is
unreachable. -/
def get_proposal_for_edit (store : Store) (proposal_id : String)
    (_user_id : String) : Except PyErr (Option ProposalDoc) :=
  match store proposal_id with
  | none => .ok none
  | some _ => .error (.business "PROPOSAL_GET_ERROR")

/-- `ProposalCoreService.update_proposal`: the fetch via
`get_proposal_for_edit` raises `PROPOSAL_GET_ERROR` for an existing
document (re-raised by the `isinstance` guard) and yields `None` for a
missing one, upon which the method raises
`PROPOSAL_NOT_FOUND_OR_NO_PERMISSION`.  The `can_edit` gate and the
`$set` update below are unreachable: no content update ever applies
and the store is untouched. -/
def update_proposal (store : Store) (proposal_id : String)
    (_user_id : String) : Except PyErr Unit × Store :=
  match store proposal_id with
  | none => (.error (.business "PROPOSAL_NOT_FOUND_OR_NO_PERMISSION"), store)
  | some _ => (.error (.business "PROPOSAL_GET_ERROR"), store)

/-- `ProposalCoreService.delete_proposal`: identical reachable prefix to
`update_proposal` — the fetch raises `PROPOSAL_GET_ERROR` for an
existing document, `PROPOSAL_NOT_FOUND_OR_NO_PERMISSION` for a missing
one.  The status gate and the archive `update_one` (`$set status:
archived`) are unreachable; there is no `delete_one` anywhere in the
repository, so no document is ever removed — nor ever archived. -/
def delete_proposal (store : Store) (proposal_id : String)
    (_user_id : String) : Except PyErr Unit × Store :=
  match store proposal_id with
  | none => (.error (.business "PROPOSAL_NOT_FOUND_OR_NO_PERMISSION"), store)
  | some _ => (.error (.business "PROPOSAL_GET_ERROR"), store)

/-! ## Workflow service (workflow_service.py) — NOT importable

The module fails at `from app.core.exceptions import ...
PermissionException ...` (no such class exists), so nothing in it can
run in the program.  The definitions embed what the function bodies
specify. -/

/-- `ProposalWorkflowService._transition_status`: constructs
`ReviewRecord(action=..., status_from=..., status_to=...,
reviewer_id=..., comment=..., created_at=..., metadata=...)` — the
model requires `reviewer_name` (never passed) and knows none of
`status_from`/`status_to`/`created_at`/`metadata`, so the construction
raises; the method's handler wraps it as `STATUS_TRANSITION_ERROR`.
The `$set`/`$push` `update_one` is unreachable: no status is ever
changed and no review record is ever appended. -/
def transition_status (store : Store) (_proposal_id : String)
    (_from_status _to_status : ProposalStatus)
    (_operator_id _comment : String) : Except PyErr Unit × Store :=
  (.error (.business "STATUS_TRANSITION_ERROR"), store)

/-- `ProposalWorkflowService.submit_proposal`: the fetch via
`get_proposal_for_edit` ends it — `PROPOSAL_GET_ERROR` for an existing
document (re-raised by the `isinstance` guard),
`PROPOSAL_NOT_FOUND_OR_NO_PERMISSION` for a missing one.  The
`can_submit` gate, the transition validation, the completeness gate
(whose `PROPOSAL_DATA_INCOMPLETE` raise would itself be a `TypeError`)
and the transition are all unreachable. -/
def submit_proposal (store : Store) (proposal_id : String)
    (_user_id : String) : Except PyErr Unit × Store :=
  match store proposal_id with
  | none => (.error (.business "PROPOSAL_NOT_FOUND_OR_NO_PERMISSION"), store)
  | some _ => (.error (.business "PROPOSAL_GET_ERROR"), store)

/-- `ProposalWorkflowService.publish_proposal`: first
`check_admin_permission` — its `TypeError` fails the `isinstance`
re-raise guard and is wrapped as `PROPOSAL_PUBLISH_ERROR` (creator
identity is never consulted).  With an admin caller, the fetch raises
`PROPOSAL_GET_ERROR` for an existing document (a `BusinessException`,
re-raised) or `PROPOSAL_NOT_FOUND` for a missing one.  The status gate
and the transition to Available are unreachable: no publish ever
succeeds. -/
def publish_proposal (users : Users) (store : Store)
    (proposal_id admin_id : String) : Except PyErr Unit × Store :=
  match check_admin_permission users admin_id with
  | .error _ => (.error (.business "PROPOSAL_PUBLISH_ERROR"), store)
  | .ok _ =>
    match store proposal_id with
    | none => (.error (.business "PROPOSAL_NOT_FOUND"), store)
    | some _ => (.error (.business "PROPOSAL_GET_ERROR"), store)

/-! ## Admin service (admin_service.py) — NOT importable

Same failing import of `PermissionException`. -/

/-- `ProposalApproveRequest` (schemas/proposal.py): only `comment`;
there is no `auto_publish` field (admin_service passes one, which
pydantic ignores at construction). -/
structure ProposalApproveRequest where
  comment : Option String
deriving DecidableEq, Repr

/-- `ProposalRejectRequest` (schemas/proposal.py): the reject reason
(`min_length=10` at the pydantic layer). -/
structure ProposalRejectRequest where
  reason : String
deriving DecidableEq, Repr

/-- `ProposalAdminService.approve_proposal`: `check_admin_permission`
fails with a `TypeError` for a non-admin, wrapped as
`PROPOSAL_APPROVE_ERROR`; with an admin, the fetch raises
`PROPOSAL_GET_ERROR` for an existing document or the method raises
`PROPOSAL_NOT_FOUND` for a missing one (both `BusinessException`s,
re-raised).  The status gate, the transition and the auto-publish chain
are unreachable: no approval ever succeeds.  The request data is never
consulted. -/
def approve_proposal (users : Users) (store : Store)
    (proposal_id admin_id : String)
    (_approve_data : ProposalApproveRequest) : Except PyErr Unit × Store :=
  match check_admin_permission users admin_id with
  | .error _ => (.error (.business "PROPOSAL_APPROVE_ERROR"), store)
  | .ok _ =>
    match store proposal_id with
    | none => (.error (.business "PROPOSAL_NOT_FOUND"), store)
    | some _ => (.error (.business "PROPOSAL_GET_ERROR"), store)

/-- `ProposalAdminService.reject_proposal`: same reachable prefix as
`approve_proposal` with the wrap code `PROPOSAL_REJECT_ERROR`.  The
status gate, the reason-length check (whose `REJECT_REASON_TOO_SHORT`
raise would itself be a `TypeError`) and the transition to Rejected are
unreachable — the reject reason is never read. -/
def reject_proposal (users : Users) (store : Store)
    (proposal_id admin_id : String)
    (_reject_data : ProposalRejectRequest) : Except PyErr Unit × Store :=
  match check_admin_permission users admin_id with
  | .error _ => (.error (.business "PROPOSAL_REJECT_ERROR"), store)
  | .ok _ =>
    match store proposal_id with
    | none => (.error (.business "PROPOSAL_NOT_FOUND"), store)
    | some _ => (.error (.business "PROPOSAL_GET_ERROR"), store)

/-- The per-id loop of `ProposalAdminService.batch_approve`: each id is
passed to `approve_proposal` inside its own try — a normal return goes
to `successful`, a raised exception to `failed` plus a per-id entry in
`errors` (the source stores `str(e)`; the exception itself is kept
here), and the loop always continues.  Since `approve_proposal` raises
for every id, the success branch (faithful to the source's `if
success:` arm) is never taken. -/
def batch_approve_go (users : Users) (admin_id batch_comment : String) :
    List String → Store →
      (List String × List String × List (String × PyErr)) × Store
  | [], store => (([], [], []), store)
  | pid :: rest, store =>
    match approve_proposal users store pid admin_id
        { comment := some batch_comment } with
    | (.ok _, store1) =>
      let r := batch_approve_go users admin_id batch_comment rest store1
      ((pid :: r.1.1, r.1.2.1, r.1.2.2), r.2)
    | (.error e, store1) =>
      let r := batch_approve_go users admin_id batch_comment rest store1
      ((r.1.1, pid :: r.1.2.1, (pid, e) :: r.1.2.2), r.2)

/-- The result dict of `batch_approve`. -/
structure BatchResult where
  total : Nat
  successful : List String
  failed : List String
  errors : List (String × PyErr)
deriving DecidableEq, Repr

/-- `ProposalAdminService.batch_approve`: the admin check runs inside
the outer try, so its `TypeError` for a non-admin is wrapped as
`BATCH_APPROVE_ERROR`; with an admin the per-id loop runs to completion
and the result dict is returned normally. -/
def batch_approve (users : Users) (store : Store) (ids : List String)
    (admin_id batch_comment : String) :
    Except PyErr BatchResult × Store :=
  match check_admin_permission users admin_id with
  | .error _ => (.error (.business "BATCH_APPROVE_ERROR"), store)
  | .ok _ =>
    let r := batch_approve_go users admin_id batch_comment ids store
    (.ok { total := ids.length
           successful := r.1.1
           failed := r.1.2.1
           errors := r.1.2.2 }, r.2)

/-- The `batch_approve_proposals` HTTP endpoint
(api/v1/proposals/admin.py): more than 50 ids raises
`HTTPException(400)` inside the try, which the endpoint's blanket
`except Exception` swallows and re-raises as `HTTPException(500)`; at
most 50 ids reach `proposal_service.admin.batch_approve(...,
comment=...)`, a `TypeError` (the service parameter is named
`batch_comment`), wrapped the same way.  Every call therefore ends as
HTTP 500 before any service work, with the store untouched. -/
def batch_approve_endpoint (_users : Users) (store : Store)
    (ids : List String) (_admin_id : String) (_comment : Option String) :
    Except PyErr BatchResult × Store :=
  if ids.length > 50 then (.error (.http 500), store)
  else (.error (.http 500), store)

/-! ## Search service (search_service.py) — importable -/

/-- `ProposalSearchParams` (schemas/proposal.py lines 420-453), the
fields relevant here: the keyword field is named `keyword`, pagination
is `page`/`size`.  search_service.py instead reads `keywords`,
`page_size` and `locations`/`min_established_year` — none of which
exist on this model. -/
structure ProposalSearchParams where
  keyword : Option String
  page : Nat
  size : Nat
deriving DecidableEq, Repr

/-- The status constraint `_build_base_query` writes into the query
dict before it crashes (search_service.py lines 510-519): authenticated
callers get `{$in: [available, sent]}`, anonymous callers the equality
`available`. -/
def base_query_status (user_id : Option String) : List ProposalStatus :=
  match user_id with
  | some _ => [.available, .sent]
  | none => [.available]

/-- `ProposalSearchService._build_base_query`: after assigning the
status constraint it evaluates `search_params.keywords` — a field that
does not exist on `ProposalSearchParams` (the schema declares
`keyword`) — so the method always raises `AttributeError` and never
returns a query. -/
def build_base_query (_params : ProposalSearchParams)
    (_user_id : Option String) : Except PyErr Unit :=
  .error .attributeError

/-- `ProposalSearchService.search_proposals`: its first step,
`_build_base_query`, raises `AttributeError`; the method's handler
wraps it as `PROPOSAL_SEARCH_ERROR`.  No query is ever executed, no
document of any status is ever returned, and the formatter
(`_format_proposal_for_search`, which would read the nonexistent
`financial_info.revenue`/`profit`) and `Proposal.from_dict`
(search_service.py line 92) are never reached.  The result payload is
`Unit` because no call ever produces one. -/
def search_proposals (_docs : List ProposalDoc)
    (_params : ProposalSearchParams) (_user_id : Option String) :
    Except PyErr Unit :=
  .error (.business "PROPOSAL_SEARCH_ERROR")

/-! ## Concrete documents and users for the evaluations -/

/-- Users table for the concrete scenarios: an active seller, an active
admin, an active buyer, an inactive admin. -/
def sampleUsers : Users := fun uid =>
  if uid = "seller1" then some { role := .seller, is_active := true }
  else if uid = "admin1" then some { role := .admin, is_active := true }
  else if uid = "buyer1" then some { role := .buyer, is_active := true }
  else if uid = "admin2" then some { role := .admin, is_active := false }
  else none

/-- A stored Draft proposal with every completeness field populated
(company data, financials, teaser, FullContent with a long
description), created by "seller1". -/
def sampleDoc : ProposalDoc :=
  { id := "p1"
    creator_id := "seller1"
    status := .draft
    version := 1
    company_info :=
      { company_name := "Acme Corp"
        industry := "科技軟體"
        company_size := "小型企業"
        headquarters := "Taipei"
        established_year := 2010 }
    financial_info :=
      { annual_revenue := 5000000
        net_profit := 400000
        asking_price := 20000000 }
    business_model := { business_type := "b2b" }
    teaser_content :=
      { title := "Acme"
        tagline := "Industrial software vendor"
        summary := "Recurring-revenue industrial software vendor."
        highlights := ["patents", "clients", "growth"] }
    full_content := some
      { detailed_description :=
          "A long detailed description of the company operations, markets, products, team, financial history and growth strategy, written out to comfortably exceed the two hundred character completeness requirement that the specification imposes on full content." }
    review_records := []
    view_count := 0
    sent_count := 0
    created_at := 0
    updated_at := 0 }

/-- A store holding only `sampleDoc` (a Draft) under "p1". -/
def sampleStore : Store := fun k =>
  if k = "p1" then some sampleDoc else none

/-- The same store with the proposal in UnderReview. -/
def underReviewStore : Store := fun k =>
  if k = "p1" then some { sampleDoc with status := .under_review } else none

/-- The same store with the proposal in Approved. -/
def approvedStore : Store := fun k =>
  if k = "p1" then some { sampleDoc with status := .approved } else none

/-! ### Claim C1 (corrected) -/

/-- The adjacency table exactly as the claim states it (spec §4.1 /
§8 transition closure), to be compared with the table embedded from the
source. -/
def spec_adjacency (current target : ProposalStatus) : Prop :=
  (current = .draft ∧ (target = .under_review ∨ target = .archived)) ∨
  (current = .under_review ∧
    (target = .approved ∨ target = .rejected ∨ target = .draft)) ∨
  (current = .approved ∧ (target = .available ∨ target = .archived)) ∨
  (current = .available ∧ (target = .sent ∨ target = .archived)) ∨
  (current = .sent ∧ target = .archived) ∨
  (current = .rejected ∧ (target = .draft ∨ target = .archived))

instance (c t : ProposalStatus) : Decidable (spec_adjacency c t) := by
  unfold spec_adjacency; infer_instance

/-- Counterexample to C1 as stated: an illegal pair does fail, but the
failure is a raw `TypeError` from the `ValidationException` constructor
(which accepts no `error_code` keyword), carrying no
`INVALID_STATUS_TRANSITION` error code. -/
theorem invalid_transition_no_error_code_counterexample :
    validate_status_transition .archived .draft = .error .typeError ∧
    ¬ (result_code (validate_status_transition .archived .draft) =
        some "INVALID_STATUS_TRANSITION") := by
  decide

/-- C1 amended: `validate_status_transition` succeeds iff the target is
in the fixed adjacency table for the current status
(Draft→{UnderReview, Archived}; UnderReview→{Approved, Rejected,
Draft}; Approved→{Available, Archived}; Available→{Sent, Archived};
Sent→{Archived}; Rejected→{Draft, Archived}), and from Archived every
target fails — but every failure raises a `TypeError` (the
`ValidationException` constructor rejects the `error_code=` keyword the
raise site passes), never a structured INVALID_STATUS_TRANSITION
error. -/
theorem validate_status_transition_table :
    (∀ c t, succeeds (validate_status_transition c t) = true ↔
        spec_adjacency c t) ∧
    (∀ t, succeeds (validate_status_transition .archived t) = false) ∧
    (∀ c t, ¬ spec_adjacency c t →
      validate_status_transition c t = .error .typeError) := by
  refine ⟨?_, ?_, ?_⟩
  · intro c t; cases c <;> cases t <;> decide
  · intro t; cases t <;> decide
  · intro c t h
    revert h
    cases c <;> cases t <;> decide

/-- Witness for C1: a concrete illegal pair evaluated through the
theorem. -/
theorem validate_status_transition_table_witness :
    validate_status_transition .sent .draft = .error .typeError :=
  validate_status_transition_table.2.2 .sent .draft (by decide)

/-! ### Claim C2 (code bug) -/

/-- C2 fails on the code: no status transition can ever succeed, so no
review record is ever appended and no history is ever built.
`_transition_status` always raises `STATUS_TRANSITION_ERROR` (the
`ReviewRecord` construction fails before the `update_one`) and leaves
the store untouched, and `create_proposal` always raises
`PROPOSAL_CREATE_ERROR` (the `Proposal` constructor is a `TypeError`),
so not even a fresh Draft document is ever created — the claimed
record-per-transition invariant describes behavior the program cannot
perform.  (The workflow module additionally fails to import.) -/
theorem transitions_never_append :
    (∀ store pid f t op cm,
      (transition_status store pid f t op cm).1 =
        .error (.business "STATUS_TRANSITION_ERROR") ∧
      (transition_status store pid f t op cm).2 = store) ∧
    (∀ store creator,
      (create_proposal store creator).1 =
        .error (.business "PROPOSAL_CREATE_ERROR") ∧
      (create_proposal store creator).2 = store) ∧
    ((transition_status sampleStore "p1" .draft .under_review "seller1"
        "submit").2 "p1").map (fun p => p.review_records.length) = some 0 :=
  ⟨fun _ _ _ _ _ _ => ⟨rfl, rfl⟩, fun _ _ => ⟨rfl, rfl⟩, rfl⟩

/-! ### Claim C3 (code bug) -/

/-- C3 fails on the code: no content or status mutation ever applies —
`update_proposal` dies at the fetch (`PROPOSAL_GET_ERROR` for an
existing document, `PROPOSAL_NOT_FOUND_OR_NO_PERMISSION` otherwise) and
`_transition_status` dies at the `ReviewRecord` construction — so
`version` never changes; and no code path accepts an `expectedVersion`
or raises any VersionConflict (the reachable `update_one` filters match
on `_id` only).  The optimistic-concurrency contract exists only in the
spec. -/
theorem version_never_changes :
    (∀ store pid uid,
      succeeds (update_proposal store pid uid).1 = false ∧
      (update_proposal store pid uid).2 = store) ∧
    (∀ store pid f t op cm,
      (transition_status store pid f t op cm).2 = store) ∧
    (∀ store pid uid p, store pid = some p →
      ((update_proposal store pid uid).2 pid).map (fun q => q.version) =
        some p.version) ∧
    ((update_proposal sampleStore "p1" "seller1").1 =
      .error (.business "PROPOSAL_GET_ERROR")) := by
  refine ⟨?_, fun _ _ _ _ _ _ => rfl, ?_, rfl⟩
  · intro store pid uid
    unfold update_proposal
    cases store pid with
    | none => exact ⟨rfl, rfl⟩
    | some p => exact ⟨rfl, rfl⟩
  · intro store pid uid p hp
    have h2 : (update_proposal store pid uid).2 = store := by
      unfold update_proposal
      cases store pid with
      | none => rfl
      | some q => rfl
    rw [h2, hp]
    rfl

/-- Witness for C3: the stored Draft keeps version 1 across an update
attempt by its creator. -/
theorem version_never_changes_witness :
    ((update_proposal sampleStore "p1" "seller1").2 "p1").map
      (fun q => q.version) = some 1 :=
  version_never_changes.2.2.1 sampleStore "p1" "seller1" sampleDoc rfl

/-! ### Claim C4 (code bug) -/

/-- C4 fails on the code: no submit can ever succeed, complete data or
not.  `submit_proposal` lives in the non-importable workflow module,
and its body dies at the fetch — `PROPOSAL_GET_ERROR` for the fully
completed Draft `sampleDoc` — before the completeness gate; the gate
itself is a stub that always reports `ready_for_submission = false`
(and its `PROPOSAL_DATA_INCOMPLETE` raise would be a `TypeError`).  The
first half of the claim (no success while the report says not ready)
holds vacuously; the promised round-trip is impossible. -/
theorem submit_never_succeeds :
    (∀ store pid uid,
      succeeds (submit_proposal store pid uid).1 = false ∧
      (submit_proposal store pid uid).2 = store) ∧
    (∀ p, (check_data_completeness p).ready_for_submission = false) ∧
    ((submit_proposal sampleStore "p1" "seller1").1 =
      .error (.business "PROPOSAL_GET_ERROR")) := by
  refine ⟨?_, fun _ => rfl, rfl⟩
  intro store pid uid
  unfold submit_proposal
  cases store pid with
  | none => exact ⟨rfl, rfl⟩
  | some p => exact ⟨rfl, rfl⟩

/-! ### Claim C5 (code bug) -/

/-- C5 fails on the code: `search_proposals` raises
`PROPOSAL_SEARCH_ERROR` on every call — `_build_base_query` writes the
claimed status constraint (Available for anonymous, {Available, Sent}
for authenticated callers) into the query dict and then reads the
nonexistent `search_params.keywords`, an `AttributeError` — so no
search ever returns any proposal of any status (the no-leak clauses
hold only vacuously), and the teaser projection, the revenue bucketing
and `Proposal.from_dict` are never reached. -/
theorem search_always_fails :
    (base_query_status none = [.available]) ∧
    (∀ uid, base_query_status (some uid) = [.available, .sent]) ∧
    (∀ params uid, build_base_query params uid = .error .attributeError) ∧
    (∀ docs params uid,
      search_proposals docs params uid =
        .error (.business "PROPOSAL_SEARCH_ERROR")) ∧
    (search_proposals [{ sampleDoc with status := .available }]
        { keyword := none, page := 1, size := 10 } none =
      .error (.business "PROPOSAL_SEARCH_ERROR")) :=
  ⟨rfl, fun _ => rfl, fun _ _ => rfl, fun _ _ _ => rfl, rfl⟩

/-! ### Claim C6 (code bug) -/

/-- C6 fails on the code: `reject_proposal` (in the non-importable
admin module) can never reject anything.  An admin rejecting the
existing UnderReview proposal with a perfectly valid reason gets
`PROPOSAL_GET_ERROR` at the fetch; a non-admin caller gets the admin
gate's `TypeError` wrapped as `PROPOSAL_REJECT_ERROR`; the reason is
never read at all (the result is independent of it), so
`REJECT_REASON_TOO_SHORT` can never be raised; and the store is never
modified. -/
theorem reject_never_executes :
    (∀ users store pid aid rd,
      succeeds (reject_proposal users store pid aid rd).1 = false ∧
      (reject_proposal users store pid aid rd).2 = store) ∧
    (∀ users store pid aid rd rd',
      reject_proposal users store pid aid rd =
        reject_proposal users store pid aid rd') ∧
    ((reject_proposal sampleUsers underReviewStore "p1" "admin1"
        { reason := "data incomplete, please expand financials" }).1 =
      .error (.business "PROPOSAL_GET_ERROR")) ∧
    ((reject_proposal sampleUsers underReviewStore "p1" "buyer1"
        { reason := "bad" }).1 =
      .error (.business "PROPOSAL_REJECT_ERROR")) := by
  refine ⟨?_, fun _ _ _ _ _ _ => rfl, rfl, rfl⟩
  intro users store pid aid rd
  unfold reject_proposal
  cases check_admin_permission users aid with
  | error e => exact ⟨rfl, rfl⟩
  | ok u =>
    cases store pid with
    | none => exact ⟨rfl, rfl⟩
    | some p => exact ⟨rfl, rfl⟩

/-! ### Claim C7 (code bug) -/

/-- C7 fails on the code: `publish_proposal` (in the non-importable
workflow module) can never publish anything.  An active admin
publishing the existing Approved proposal gets `PROPOSAL_GET_ERROR` at
the fetch; the creator (a non-admin) gets the admin gate's `TypeError`
wrapped as `PROPOSAL_PUBLISH_ERROR` — creator identity is never
consulted — and the store is never modified. -/
theorem publish_never_succeeds :
    (∀ users store pid aid,
      succeeds (publish_proposal users store pid aid).1 = false ∧
      (publish_proposal users store pid aid).2 = store) ∧
    ((publish_proposal sampleUsers approvedStore "p1" "admin1").1 =
      .error (.business "PROPOSAL_GET_ERROR")) ∧
    ((publish_proposal sampleUsers approvedStore "p1" "seller1").1 =
      .error (.business "PROPOSAL_PUBLISH_ERROR")) := by
  refine ⟨?_, rfl, rfl⟩
  intro users store pid aid
  unfold publish_proposal
  cases check_admin_permission users aid with
  | error e => exact ⟨rfl, rfl⟩
  | ok u =>
    cases store pid with
    | none => exact ⟨rfl, rfl⟩
    | some p => exact ⟨rfl, rfl⟩

/-! ### Claim C8 (code bug) -/

/-- C8 fails on the code: `delete_proposal` never removes a document —
but it never archives one either.  The creator deleting their
still-Draft proposal gets `PROPOSAL_GET_ERROR` at the fetch
(`Proposal.from_dict` does not exist), the document stays Draft, and
the store is bit-for-bit unchanged on every call; the soft-delete
`update_one` and the claimed hard-remove path are both unreachable (no
`delete_one` exists in the repository). -/
theorem delete_never_removes_or_archives :
    (∀ store pid uid,
      succeeds (delete_proposal store pid uid).1 = false ∧
      (delete_proposal store pid uid).2 = store) ∧
    (∀ store pid uid k,
      (((delete_proposal store pid uid).2) k).isSome = (store k).isSome) ∧
    ((delete_proposal sampleStore "p1" "seller1").1 =
      .error (.business "PROPOSAL_GET_ERROR")) ∧
    (((delete_proposal sampleStore "p1" "seller1").2 "p1").map
      (fun p => p.status) = some .draft) := by
  have hbase : ∀ (store : Store) pid uid,
      succeeds (delete_proposal store pid uid).1 = false ∧
      (delete_proposal store pid uid).2 = store := by
    intro store pid uid
    unfold delete_proposal
    cases store pid with
    | none => exact ⟨rfl, rfl⟩
    | some p => exact ⟨rfl, rfl⟩
  refine ⟨hbase, ?_, rfl, rfl⟩
  intro store pid uid k
  rw [(hbase store pid uid).2]

/-! ### Claim C9 (code bug) -/

/-- With the admin gate passed, `approve_proposal` raises for every id:
`PROPOSAL_NOT_FOUND` for a missing document, `PROPOSAL_GET_ERROR` for
an existing one, leaving the store unchanged. -/
theorem approve_proposal_always_raises (users : Users) (store : Store)
    (pid aid : String) (rq : ProposalApproveRequest)
    (hadm : check_admin_permission users aid = .ok ()) :
    approve_proposal users store pid aid rq =
      (.error (match store pid with
        | none => PyErr.business "PROPOSAL_NOT_FOUND"
        | some _ => PyErr.business "PROPOSAL_GET_ERROR"), store) := by
  unfold approve_proposal
  rw [hadm]
  cases store pid with
  | none => rfl
  | some p => rfl

/-- The loop outcome with an admin caller: nothing ever lands in
`successful`, every id lands in `failed` in input order with a per-id
error entry, and the store is unchanged. -/
theorem batch_approve_go_all_fail (users : Users)
    (aid cm : String)
    (hadm : check_admin_permission users aid = .ok ()) :
    ∀ (ids : List String) (store : Store),
      batch_approve_go users aid cm ids store =
        (([], ids, ids.map fun pid =>
          (pid, match store pid with
                | none => PyErr.business "PROPOSAL_NOT_FOUND"
                | some _ => PyErr.business "PROPOSAL_GET_ERROR")), store) := by
  intro ids
  induction ids with
  | nil => intro store; rfl
  | cons pid rest ih =>
    intro store
    unfold batch_approve_go
    rw [approve_proposal_always_raises users store pid aid
      { comment := some cm } hadm]
    simp [ih]

/-- Projecting the ids back out of a per-id tagging. -/
theorem map_fst_tag (g : String → PyErr) :
    ∀ l : List String, (l.map fun pid => (pid, g pid)).map Prod.fst = l := by
  intro l
  induction l with
  | nil => rfl
  | cons x xs ih => simp [ih]

/-- C9 fails on the code: the batch-approve endpoint always ends as
HTTP 500 before the service runs (over 50 ids: the `HTTPException(400)`
is swallowed by the blanket handler and re-raised as 500; at most 50
ids: the call passes `comment=` to a service whose parameter is
`batch_comment`, a `TypeError`, wrapped the same way) — and the service
itself lives in the non-importable admin module.  Were it called
directly, the loop is indeed best-effort and partitions every id with a
per-id error, but `successful` is always empty: every single id fails
at the fetch, so no batch ever approves anything. -/
theorem batch_approve_all_fail :
    (∀ users store ids aid cm r s,
      batch_approve users store ids aid cm = (.ok r, s) →
      r.total = ids.length ∧ r.successful = [] ∧ r.failed = ids ∧
        r.errors.map Prod.fst = ids ∧ s = store) ∧
    (∀ users store ids aid cm,
      check_admin_permission users aid = .ok () →
      batch_approve users store ids aid cm =
        (.ok { total := ids.length
               successful := []
               failed := ids
               errors := ids.map fun pid =>
                 (pid, match store pid with
                       | none => PyErr.business "PROPOSAL_NOT_FOUND"
                       | some _ => PyErr.business "PROPOSAL_GET_ERROR") },
          store)) ∧
    (∀ users store ids aid cm,
      batch_approve_endpoint users store ids aid cm =
        (.error (.http 500), store)) := by
  have hok : ∀ (users : Users) (store : Store) ids aid cm,
      check_admin_permission users aid = .ok () →
      batch_approve users store ids aid cm =
        (.ok { total := ids.length
               successful := []
               failed := ids
               errors := ids.map fun pid =>
                 (pid, match store pid with
                       | none => PyErr.business "PROPOSAL_NOT_FOUND"
                       | some _ => PyErr.business "PROPOSAL_GET_ERROR") },
          store) := by
    intro users store ids aid cm hadm
    unfold batch_approve
    rw [hadm]
    rw [batch_approve_go_all_fail users aid cm hadm ids store]
  refine ⟨?_, hok, ?_⟩
  · intro users store ids aid cm r s hr
    cases hadm : check_admin_permission users aid with
    | error e =>
      unfold batch_approve at hr
      rw [hadm] at hr
      exact absurd ((Prod.mk.injEq ..).mp hr).1 (by simp)
    | ok u =>
      cases u
      rw [hok users store ids aid cm hadm] at hr
      have h1 := ((Prod.mk.injEq ..).mp hr).1
      have h2 := ((Prod.mk.injEq ..).mp hr).2
      have h3 := (Except.ok.injEq ..).mp h1
      rw [← h3, ← h2]
      refine ⟨rfl, rfl, rfl, ?_, rfl⟩
      exact map_fst_tag _ ids
  · intro users store ids aid cm
    unfold batch_approve_endpoint
    split
    · rfl
    · rfl

/-- Witness for C9: a two-id batch (one existing UnderReview proposal,
one missing id) run with an admin — nothing is approved, both ids land
in `failed` with their errors. -/
theorem batch_approve_all_fail_witness :
    batch_approve sampleUsers underReviewStore ["p1", "p2"] "admin1"
        "batch ok" =
      (.ok { total := 2
             successful := []
             failed := ["p1", "p2"]
             errors := [("p1", .business "PROPOSAL_GET_ERROR"),
                        ("p2", .business "PROPOSAL_NOT_FOUND")] },
        underReviewStore) := by
  rw [batch_approve_all_fail.2.1 sampleUsers underReviewStore
    ["p1", "p2"] "admin1" "batch ok" rfl]
  rfl

/-! ### Claim C10 (code bug) -/

/-- C10 fails on the code: `get_proposal_by_id` raises
`PROPOSAL_GET_ERROR` for every existing document — the nonexistent
`Proposal.from_dict` is called before the increment branch — so
`view_count` is never incremented for any viewer and the store is never
modified by a fetch (the two claimed no-change cases hold, but so does
no-change in the claimed increment case).  The standalone
`increment_view_count` helper itself does perform the `$inc` when
called directly, but `get_proposal_by_id` never reaches it. -/
theorem view_count_never_incremented :
    (∀ store pid uid inc, (get_proposal_by_id store pid uid inc).2 =
      store) ∧
    (∀ store pid uid inc p, store pid = some p →
      (get_proposal_by_id store pid uid inc).1 =
        .error (.business "PROPOSAL_GET_ERROR")) ∧
    (∀ store pid uid inc, store pid = none →
      (get_proposal_by_id store pid uid inc).1 = .ok none) ∧
    (∀ store pid p, store pid = some p →
      increment_view_count store pid =
        Store.put store pid { p with view_count := p.view_count + 1 }) := by
  refine ⟨?_, ?_, ?_, ?_⟩
  · intro store pid uid inc
    unfold get_proposal_by_id
    cases store pid with
    | none => rfl
    | some p => rfl
  · intro store pid uid inc p hp
    unfold get_proposal_by_id
    rw [hp]
  · intro store pid uid inc hp
    unfold get_proposal_by_id
    rw [hp]
  · intro store pid p hp
    unfold increment_view_count
    rw [hp]

/-- Witness for C10: an authenticated buyer fetching the existing "p1"
with `increment_view = true` gets the error, and the stored document
still has `view_count = 0`. -/
theorem view_count_never_incremented_witness :
    (get_proposal_by_id sampleStore "p1" (some "buyer1") true).1 =
      .error (.business "PROPOSAL_GET_ERROR") ∧
    ((get_proposal_by_id sampleStore "p1" (some "buyer1") true).2 "p1").map
      (fun p => p.view_count) = some 0 :=
  ⟨view_count_never_incremented.2.1 sampleStore "p1" (some "buyer1")
    true sampleDoc rfl, rfl⟩

end MA
